import Mathlib

/-!
Verification of the gramps-webapi authorization and user-management core.

This file is a shallow embedding, in Lean 4, of the parts of the repository
relevant to the claims under scrutiny:

* `gramps_webapi/auth/const.py` — role constants and the permission matrix;
* `gramps_webapi/auth/__init__.py` — the credential store operations
  (`add_user`, `modify_user`, `authorized`, `get_number_users`, `fill_tree`,
  lookups);
* `gramps_webapi/api/resources/user.py` — the user HTTP resources
  (register, password change, password reset trigger and application,
  single-user view);
* `gramps_webapi/api/tasks.py` — `run_task` and `make_task_response`.

The SQL user table is modelled as a list of `User` records; each mutating
operation is a pure function returning either a new list (the committed
transaction) or an error (the rolled-back transaction), so failures never
produce partial writes, exactly as a single-transaction commit.  The
password hashing and verification functions live in
`gramps_webapi/auth/passwords.py`, which only exposes a salted one-way hash
and a verifier; the embedding is parametric in those two functions
(`hashFn`, `verifyFn`), so every theorem holds for an arbitrary hash.
Flask helpers (`get_jwt_identity`, `get_tree_from_jwt`, permission checks
against the caller's session) are inputs of the handler functions: the
caller's id, the caller's tree and the booleans saying which permissions
the caller holds.
-/

/-! ## Role constants (auth/const.py lines 24-32) -/

def ROLE_ADMIN : Int := 5

def ROLE_OWNER : Int := 4

def ROLE_EDITOR : Int := 3

def ROLE_CONTRIBUTOR : Int := 2

def ROLE_MEMBER : Int := 1

def ROLE_GUEST : Int := 0

def ROLE_DISABLED : Int := -1

def ROLE_UNCONFIRMED : Int := -2

/-! ## Permission name constants (auth/const.py lines 35-57) -/

def PERM_ADD_OTHER_TREE_USER : String := "AddOtherTreeUser"

def PERM_EDIT_OTHER_TREE_USER : String := "EditOtherTreeUser"

def PERM_EDIT_OTHER_TREE_USER_ROLE : String := "EditOtherTreeUserRole"

def PERM_VIEW_OTHER_TREE_USER : String := "ViewOtherTreeUser"

def PERM_DEL_OTHER_TREE_USER : String := "DeleteOtherTreeUser"

def PERM_ADD_USER : String := "AddUser"

def PERM_EDIT_OWN_USER : String := "EditOwnUser"

def PERM_EDIT_OTHER_USER : String := "EditOtherUser"

def PERM_EDIT_USER_ROLE : String := "EditUserRole"

def PERM_MAKE_ADMIN : String := "MakeAdmin"

def PERM_VIEW_OTHER_USER : String := "ViewOtherUser"

def PERM_DEL_USER : String := "DeleteUser"

def PERM_VIEW_PRIVATE : String := "ViewPrivate"

def PERM_EDIT_OBJ : String := "EditObject"

def PERM_ADD_OBJ : String := "AddObject"

def PERM_DEL_OBJ : String := "DeleteObject"

def PERM_IMPORT_FILE : String := "ImportFile"

def PERM_VIEW_SETTINGS : String := "ViewSettings"

def PERM_EDIT_SETTINGS : String := "EditSettings"

def PERM_TRIGGER_REINDEX : String := "TriggerReindex"

def PERM_EDIT_NAME_GROUP : String := "EditNameGroup"

/-! ## Scope claim constants (auth/const.py lines 106-109) -/

def CLAIM_LIMITED_SCOPE : String := "limited_scope"

def SCOPE_RESET_PW : String := "reset_password"

def SCOPE_CONF_EMAIL : String := "confirm_email"

def SCOPE_CREATE_ADMIN : String := "create_admin"

/-! ## The permission matrix (auth/const.py lines 59-103)

Python builds each role's permission set as the previous role's set united
with role-specific additions.  Sets of strings are embedded as lists with
membership as the set semantics (duplicate entries are irrelevant for
membership, so `++` faithfully embeds set union). -/

def PERMISSIONS_GUEST : List String :=
  [PERM_EDIT_OWN_USER]

def PERMISSIONS_MEMBER : List String :=
  PERMISSIONS_GUEST ++ [PERM_VIEW_PRIVATE]

def PERMISSIONS_CONTRIBUTOR : List String :=
  PERMISSIONS_MEMBER ++ [PERM_EDIT_OWN_USER, PERM_VIEW_PRIVATE, PERM_ADD_OBJ]

def PERMISSIONS_EDITOR : List String :=
  PERMISSIONS_CONTRIBUTOR ++ [PERM_EDIT_OBJ, PERM_DEL_OBJ, PERM_EDIT_NAME_GROUP]

def PERMISSIONS_OWNER : List String :=
  PERMISSIONS_EDITOR ++
    [PERM_ADD_USER, PERM_DEL_USER, PERM_EDIT_OTHER_USER, PERM_EDIT_USER_ROLE,
     PERM_VIEW_OTHER_USER, PERM_IMPORT_FILE, PERM_TRIGGER_REINDEX]

def PERMISSIONS_ADMIN : List String :=
  PERMISSIONS_OWNER ++
    [PERM_ADD_OTHER_TREE_USER, PERM_VIEW_OTHER_TREE_USER,
     PERM_EDIT_OTHER_TREE_USER, PERM_EDIT_OTHER_TREE_USER_ROLE,
     PERM_MAKE_ADMIN, PERM_DEL_OTHER_TREE_USER, PERM_VIEW_SETTINGS,
     PERM_EDIT_SETTINGS]

/-- The `PERMISSIONS` dict: keys are exactly the six login-capable roles;
a lookup for any other role is a `KeyError`, embedded as `none`. -/
def PERMISSIONS (role : Int) : Option (List String) :=
  if role = ROLE_GUEST then some PERMISSIONS_GUEST
  else if role = ROLE_MEMBER then some PERMISSIONS_MEMBER
  else if role = ROLE_CONTRIBUTOR then some PERMISSIONS_CONTRIBUTOR
  else if role = ROLE_EDITOR then some PERMISSIONS_EDITOR
  else if role = ROLE_OWNER then some PERMISSIONS_OWNER
  else if role = ROLE_ADMIN then some PERMISSIONS_ADMIN
  else none

/-- C1: for login-capable roles r1 ≤ r2, the permission set of r1 is a
subset of the permission set of r2: no role loses a permission held by a
lower role. -/
theorem claim_C1_permissions_monotone (r1 r2 : Int)
    (h0 : 0 ≤ r1) (h12 : r1 ≤ r2) (h25 : r2 ≤ 5) :
    ∀ p ∈ (PERMISSIONS r1).getD [], p ∈ (PERMISSIONS r2).getD [] := by
  have step1 : ∀ p ∈ PERMISSIONS_GUEST, p ∈ PERMISSIONS_MEMBER :=
    fun p hp => List.mem_append_left _ hp
  have step2 : ∀ p ∈ PERMISSIONS_MEMBER, p ∈ PERMISSIONS_CONTRIBUTOR :=
    fun p hp => List.mem_append_left _ hp
  have step3 : ∀ p ∈ PERMISSIONS_CONTRIBUTOR, p ∈ PERMISSIONS_EDITOR :=
    fun p hp => List.mem_append_left _ hp
  have step4 : ∀ p ∈ PERMISSIONS_EDITOR, p ∈ PERMISSIONS_OWNER :=
    fun p hp => List.mem_append_left _ hp
  have step5 : ∀ p ∈ PERMISSIONS_OWNER, p ∈ PERMISSIONS_ADMIN :=
    fun p hp => List.mem_append_left _ hp
  have hr1 : r1 = 0 ∨ r1 = 1 ∨ r1 = 2 ∨ r1 = 3 ∨ r1 = 4 ∨ r1 = 5 := by omega
  have hr2 : r2 = 0 ∨ r2 = 1 ∨ r2 = 2 ∨ r2 = 3 ∨ r2 = 4 ∨ r2 = 5 := by omega
  rcases hr1 with rfl | rfl | rfl | rfl | rfl | rfl <;>
    rcases hr2 with rfl | rfl | rfl | rfl | rfl | rfl <;>
    simp only [PERMISSIONS, ROLE_GUEST, ROLE_MEMBER, ROLE_CONTRIBUTOR,
      ROLE_EDITOR, ROLE_OWNER, ROLE_ADMIN] <;>
    norm_num <;>
    first
      | omega
      | exact fun p hp => hp
      | exact fun p hp => step1 p hp
      | exact fun p hp => step2 p (step1 p hp)
      | exact fun p hp => step3 p (step2 p (step1 p hp))
      | exact fun p hp => step4 p (step3 p (step2 p (step1 p hp)))
      | exact fun p hp => step5 p (step4 p (step3 p (step2 p (step1 p hp))))
      | exact fun p hp => step2 p hp
      | exact fun p hp => step3 p (step2 p hp)
      | exact fun p hp => step4 p (step3 p (step2 p hp))
      | exact fun p hp => step5 p (step4 p (step3 p (step2 p hp)))
      | exact fun p hp => step3 p hp
      | exact fun p hp => step4 p (step3 p hp)
      | exact fun p hp => step5 p (step4 p (step3 p hp))
      | exact fun p hp => step4 p hp
      | exact fun p hp => step5 p (step4 p hp)
      | exact fun p hp => step5 p hp

/-- Witness for C1 at the concrete pair r1 = 0, r2 = 5 and the permission
granted to guests. -/
theorem claim_C1_witness :
    PERM_EDIT_OWN_USER ∈ (PERMISSIONS 5).getD [] :=
  claim_C1_permissions_monotone 0 5 (by norm_num) (by norm_num) (by norm_num)
    PERM_EDIT_OWN_USER (by simp [PERMISSIONS, ROLE_GUEST, PERMISSIONS_GUEST])

/-! ## The user table (auth/__init__.py, class User, lines 267-282)

Columns: `id` (GUID primary key), `name` (unique, not null), `email`
(unique, nullable), `fullname` (nullable), `pwhash` (not null), `role`
(integer, default 0), `tree` (nullable).  The database is a list of rows;
uniqueness constraints are enforced by `add_user`'s integrity check. -/

structure User where
  id : String
  name : String
  email : Option String
  fullname : Option String
  pwhash : String
  role : Int
  tree : Option String
deriving DecidableEq

/-- `query.filter_by(name=username).scalar()` — look a user up by name. -/
def lookupUser (db : List User) (username : String) : Option User :=
  db.find? (fun u => u.name = username)

/-- `query.filter_by(id=guid).scalar()` — look a user up by GUID. -/
def lookupUserById (db : List User) (guid : String) : Option User :=
  db.find? (fun u => u.id = guid)

/-- The integrity check of the `users` table: the insert of a fresh row
violates a constraint exactly when the primary key `id`, the unique `name`,
or the unique nullable `email` (non-NULL values only; SQL UNIQUE admits
many NULLs) collides with an existing row. -/
def user_collision (db : List User) (newId : String) (name : String)
    (email : Option String) : Bool :=
  db.any (fun u =>
    decide (u.id = newId) || decide (u.name = name) ||
      (match email with
       | none => false
       | some e => decide (u.email = some e)))

/-- `add_user` (auth/__init__.py lines 41-67).  Empty name or password is
rejected up front; the insert-and-commit raises `ValueError("Invalid or
existing user")` on an integrity violation.  The whole operation is one
transaction: on error the table is unchanged (the error result carries no
table), on success the committed table is returned.  `hashFn` stands for
`hash_password` from auth/passwords.py; `newId` for the fresh
`uuid.uuid4()`. -/
def add_user (hashFn : String → String) (newId : String) (db : List User)
    (name password : String) (fullname email : Option String)
    (role : Option Int) (tree : Option String) : Except String (List User) :=
  if name = "" then .error "Username must not be empty"
  else if password = "" then .error "Password must not be empty"
  else if user_collision db newId name email then .error "Invalid or existing user"
  else
    let user : User :=
      { id := newId, name := name, email := email, fullname := fullname,
        pwhash := hashFn password, role := role.getD 0, tree := tree }
    .ok (db ++ [user])

/-- `modify_user` (auth/__init__.py lines 111-135): look the row up by
name (`.one()` raises when no row matches, embedded as the error case),
overwrite exactly the supplied fields and commit. -/
def modify_user (hashFn : String → String) (db : List User) (name : String)
    (name_new password fullname email : Option String)
    (role : Option Int) (tree : Option String) : Except String (List User) :=
  if db.any (fun u => decide (u.name = name)) then
    .ok (db.map (fun u =>
      if u.name = name then
        { u with
          name := name_new.getD u.name,
          pwhash := (password.map hashFn).getD u.pwhash,
          fullname := fullname.or u.fullname,
          email := email.or u.email,
          role := role.getD u.role,
          tree := tree.or u.tree }
      else u))
  else .error "NoResultFound"

/-- `authorized` (auth/__init__.py lines 138-147): false when the user is
unknown, false when the stored role is negative, otherwise defer to
`verify_password` (auth/passwords.py), embedded as the parameter
`verifyFn password pwhash`. -/
def authorized (verifyFn : String → String → Bool) (db : List User)
    (username password : String) : Bool :=
  match lookupUser db username with
  | none => false
  | some user => if user.role < 0 then false else verifyFn password user.pwhash

/-- `get_pwhash` (auth/__init__.py lines 150-154), total on users that
exist (`.one()`), embedded through the option. -/
def get_pwhash (db : List User) (username : String) : Option String :=
  (lookupUser db username).map User.pwhash

/-- `get_number_users` (auth/__init__.py lines 203-215): count the rows,
filtered by role membership when `roles` is given and by tree equality
when `tree` is given (SQL `tree = t` is false on NULL rows). -/
def get_number_users (db : List User) (tree : Option String)
    (roles : Option (List Int)) : Nat :=
  ((db.filter (fun u =>
      match roles with
      | none => true
      | some rs => rs.contains u.role)).filter (fun u =>
      match tree with
      | none => true
      | some t => decide (u.tree = some t))).length

/-- `fill_tree` (auth/__init__.py lines 218-225): set the `tree` column to
the given id on every row where `coalesce(tree, '') = ''`, that is where
the column is NULL or the empty string; other rows are untouched. -/
def fill_tree (db : List User) (tree : String) : List User :=
  db.map (fun u =>
    if u.tree.getD "" = "" then { u with tree := some tree } else u)

/-- C2: `authorized` is false for every password whenever the stored role
is negative, and false whenever no user record with the name exists —
`verifyFn` is never consulted in either case. -/
theorem claim_C2_negative_role_never_authorized
    (verifyFn : String → String → Bool) (db : List User) (u p : String) :
    (∀ user : User, lookupUser db u = some user → user.role < 0 →
      authorized verifyFn db u p = false) ∧
    (lookupUser db u = none → authorized verifyFn db u p = false) := by
  constructor
  · intro user hfind hrole
    simp [authorized, hfind, hrole]
  · intro hfind
    simp [authorized, hfind]

/-- Witness for C2: a user with the unconfirmed sentinel role is rejected
even by a verifier that accepts everything, and an unknown name is
rejected on the empty table. -/
theorem claim_C2_witness :
    authorized (fun _ _ => true)
      [{ id := "i1", name := "a", email := none, fullname := none,
         pwhash := "h", role := ROLE_UNCONFIRMED, tree := none }] "a" "pw" = false ∧
    authorized (fun _ _ => true) [] "a" "pw" = false := by
  constructor
  · exact (claim_C2_negative_role_never_authorized (fun _ _ => true) _ "a" "pw").1
      { id := "i1", name := "a", email := none, fullname := none,
        pwhash := "h", role := ROLE_UNCONFIRMED, tree := none }
      (by decide) (by decide)
  · exact (claim_C2_negative_role_never_authorized (fun _ _ => true) [] "a" "pw").2
      (by decide)

/-- C6: `add_user` fails with the duplicate-identity `ValueError` message
when the username or a non-null email collides with an existing user, and
with the invalid-argument messages when the name or the password is empty;
in every failure case the result is an error carrying no table, so the
pre-existing records are untouched (the transaction rolls back). -/
theorem claim_C6_add_user_duplicate_and_empty
    (hashFn : String → String) (newId : String) (db : List User)
    (name password : String) (fullname email : Option String)
    (role : Option Int) (tree : Option String) :
    (name = "" →
      add_user hashFn newId db name password fullname email role tree =
        .error "Username must not be empty") ∧
    (name ≠ "" → password = "" →
      add_user hashFn newId db name password fullname email role tree =
        .error "Password must not be empty") ∧
    (name ≠ "" → password ≠ "" →
      (∃ w ∈ db, w.name = name ∨ ∃ e, email = some e ∧ w.email = some e) →
      add_user hashFn newId db name password fullname email role tree =
        .error "Invalid or existing user") := by
  refine ⟨?_, ?_, ?_⟩
  · intro hn
    simp [add_user, hn]
  · intro hn hp
    simp [add_user, hn, hp]
  · intro hn hp hdup
    have hcol : user_collision db newId name email = true := by
      rcases hdup with ⟨w, hw, hcase⟩
      unfold user_collision
      rw [List.any_eq_true]
      refine ⟨w, hw, ?_⟩
      rcases hcase with hnm | ⟨e, he, hwe⟩
      · simp [hnm]
      · subst he
        simp [hwe]
    simp [add_user, hn, hp, hcol]

/-- Witness for C6: duplicate username, duplicate email, empty name and
empty password on a concrete one-row table. -/
theorem claim_C6_witness :
    add_user (fun s => s) "id2"
        [{ id := "id1", name := "a", email := some "a@x", fullname := none,
           pwhash := "h", role := 0, tree := none }]
        "a" "pw" none none none none = .error "Invalid or existing user" ∧
    add_user (fun s => s) "id2"
        [{ id := "id1", name := "a", email := some "a@x", fullname := none,
           pwhash := "h", role := 0, tree := none }]
        "b" "pw" none (some "a@x") none none = .error "Invalid or existing user" ∧
    add_user (fun s => s) "id2" [] "" "pw" none none none none =
      .error "Username must not be empty" ∧
    add_user (fun s => s) "id2" [] "a" "" none none none none =
      .error "Password must not be empty" := by
  refine ⟨?_, ?_, ?_, ?_⟩
  · exact (claim_C6_add_user_duplicate_and_empty (fun s => s) "id2" _ "a" "pw"
      none none none none).2.2 (by decide) (by decide)
      ⟨{ id := "id1", name := "a", email := some "a@x", fullname := none,
         pwhash := "h", role := 0, tree := none },
       by decide, Or.inl (by decide)⟩
  · exact (claim_C6_add_user_duplicate_and_empty (fun s => s) "id2" _ "b" "pw"
      none (some "a@x") none none).2.2 (by decide) (by decide)
      ⟨{ id := "id1", name := "a", email := some "a@x", fullname := none,
         pwhash := "h", role := 0, tree := none },
       by decide, Or.inr ⟨"a@x", rfl, by decide⟩⟩
  · exact (claim_C6_add_user_duplicate_and_empty (fun s => s) "id2" [] "" "pw"
      none none none none).1 rfl
  · exact (claim_C6_add_user_duplicate_and_empty (fun s => s) "id2" [] "a" ""
      none none none none).2.1 (by decide) rfl

/-- A row's tree column counts as empty exactly when it is NULL or the
empty string: this is what `coalesce(User.tree, '') = ''` tests. -/
theorem tree_coalesce_empty (t : Option String) :
    (t.getD "" = "") ↔ (t = none ∨ t = some "") := by
  cases t <;> simp

/-- C7: `fill_tree T` sets the tree column to T on every row whose tree is
NULL or the empty string — leaving every other field of that row intact —
and returns every other row entirely unchanged, position by position. -/
theorem claim_C7_fill_tree_frame (db : List User) (T : String) (i : Nat) :
    (∀ u : User, db[i]? = some u → u.tree = none ∨ u.tree = some "" →
      (fill_tree db T)[i]? = some { u with tree := some T }) ∧
    (∀ u : User, db[i]? = some u → u.tree ≠ none → u.tree ≠ some "" →
      (fill_tree db T)[i]? = some u) := by
  constructor
  · intro u hu hempty
    have hc : u.tree.getD "" = "" := (tree_coalesce_empty u.tree).mpr hempty
    simp [fill_tree, List.getElem?_map, hu, hc]
  · intro u hu h1 h2
    have hc : ¬ (u.tree.getD "" = "") := by
      rw [tree_coalesce_empty]
      tauto
    simp [fill_tree, List.getElem?_map, hu, hc]

/-- Witness for C7 on a two-row table: the NULL-tree row is backfilled,
the row with tree "t1" is unchanged. -/
theorem claim_C7_witness :
    (fill_tree
      [{ id := "i1", name := "a", email := none, fullname := none,
         pwhash := "h", role := 0, tree := none },
       { id := "i2", name := "b", email := none, fullname := none,
         pwhash := "h", role := 0, tree := some "t1" }] "T")[0]? =
      some { id := "i1", name := "a", email := none, fullname := none,
             pwhash := "h", role := 0, tree := some "T" } ∧
    (fill_tree
      [{ id := "i1", name := "a", email := none, fullname := none,
         pwhash := "h", role := 0, tree := none },
       { id := "i2", name := "b", email := none, fullname := none,
         pwhash := "h", role := 0, tree := some "t1" }] "T")[1]? =
      some { id := "i2", name := "b", email := none, fullname := none,
             pwhash := "h", role := 0, tree := some "t1" } := by
  constructor
  · exact (claim_C7_fill_tree_frame _ "T" 0).1
      { id := "i1", name := "a", email := none, fullname := none,
        pwhash := "h", role := 0, tree := none }
      (by decide) (Or.inl rfl)
  · exact (claim_C7_fill_tree_frame _ "T" 1).2
      { id := "i2", name := "b", email := none, fullname := none,
        pwhash := "h", role := 0, tree := some "t1" }
      (by decide) (by decide) (by decide)

/-! ## Task dispatch (api/tasks.py lines 43-55)

`run_task` checks `current_app.config["CELERY_CONFIG"]`: when it is falsy
the task callable is invoked directly inside the app context and its value
returned; otherwise `task.delay(**kwargs)` enqueues it and the resulting
celery `AsyncResult` handle is returned.  The embedding is parametric in
the task body (`call`, the direct invocation with its keyword arguments
already applied) and in the queue submission (`delay`, producing the
handle). -/

structure AsyncResult where
  id : String
deriving DecidableEq

/-- The two possible return shapes of `run_task`. -/
inductive RunTaskOutcome (α : Type) where
  | immediate (result : α)
  | queued (handle : AsyncResult)
deriving DecidableEq

/-- `run_task` (api/tasks.py lines 43-48). -/
def run_task {α : Type} (celery_config : Bool) (call : Unit → α)
    (delay : Unit → AsyncResult) : RunTaskOutcome α :=
  if !celery_config then .immediate (call ()) else .queued (delay ())

/-- The JSON payload of a 202 task response: an object with a single field
"task" holding "href" and "id". -/
structure TaskInfo where
  href : String
  id : String
deriving DecidableEq

structure TaskResponsePayload where
  task : TaskInfo
deriving DecidableEq

/-- `make_task_response` (api/tasks.py lines 51-55): the status endpoint
URL and the HTTP status `HTTPStatus.ACCEPTED` (202). -/
def make_task_response (task : AsyncResult) : TaskResponsePayload × Nat :=
  ({ task := { href := "/api/tasks/" ++ task.id, id := task.id } }, 202)

/-- C5: with no queue configured `run_task` returns the task's direct
return value; with a queue configured it returns the AsyncResult handle;
and the task response for a handle with identifier id is the payload
task.href = "/api/tasks/" ++ id, task.id = id with HTTP status 202. -/
theorem claim_C5_run_task_shapes {α : Type} (call : Unit → α)
    (delay : Unit → AsyncResult) (t : AsyncResult) :
    run_task false call delay = .immediate (call ()) ∧
    run_task true call delay = .queued (delay ()) ∧
    make_task_response t =
      ({ task := { href := "/api/tasks/" ++ t.id, id := t.id } }, 202) :=
  ⟨rfl, rfl, rfl⟩

/-! ## Self-registration (api/resources/user.py lines 235-278) -/

/-- The request body of POST /users/name/register: email, full_name and
password are required strings, tree is optional. -/
structure RegisterArgs where
  email : String
  full_name : String
  password : String
  tree : Option String
deriving DecidableEq

/-- `UserRegisterResource.post`: name "-" is refused (404); when no
owner-role user exists for the requested tree the registration is refused
with 405; otherwise the user is added with role `ROLE_UNCONFIRMED`
(a `ValueError` from `add_user` becomes 409).  The confirmation token and
e-mail task that follow a successful insert do not change the user table
and are outside this model; the result is the committed table and the
HTTP status. -/
def register_post (hashFn : String → String) (newId : String)
    (db : List User) (user_name : String) (args : RegisterArgs) :
    List User × Nat :=
  if user_name = "-" then (db, 404)
  else if get_number_users db args.tree (some [ROLE_OWNER]) = 0 then (db, 405)
  else
    match add_user hashFn newId db user_name args.password
        (some args.full_name) (some args.email) (some ROLE_UNCONFIRMED)
        args.tree with
    | .error _ => (db, 409)
    | .ok db2 => (db2, 201)

/-- C4: registration aborts with 405 and leaves the table unchanged
whenever zero owner-role users exist for the target tree; once at least
one owner exists, registering a fresh name/email creates exactly one new
user whose role is the unconfirmed sentinel. -/
theorem claim_C4_register_requires_owner
    (hashFn : String → String) (newId : String) (db : List User)
    (user_name : String) (args : RegisterArgs)
    (hname : user_name ≠ "-") :
    (get_number_users db args.tree (some [ROLE_OWNER]) = 0 →
      register_post hashFn newId db user_name args = (db, 405)) ∧
    (get_number_users db args.tree (some [ROLE_OWNER]) ≠ 0 →
      user_name ≠ "" → args.password ≠ "" →
      (∀ u ∈ db, u.id ≠ newId ∧ u.name ≠ user_name ∧ u.email ≠ some args.email) →
      register_post hashFn newId db user_name args =
        (db ++ [{ id := newId, name := user_name, email := some args.email,
                  fullname := some args.full_name,
                  pwhash := hashFn args.password,
                  role := ROLE_UNCONFIRMED, tree := args.tree }], 201)) := by
  constructor
  · intro h0
    simp [register_post, hname, h0]
  · intro h0 hn hp hfresh
    have hcol : user_collision db newId user_name (some args.email) = false := by
      unfold user_collision
      rw [List.any_eq_false]
      intro u hu
      rcases hfresh u hu with ⟨h1, h2, h3⟩
      simp [h1, h2, h3]
    simp [register_post, hname, h0, add_user, hn, hp, hcol]

/-- Witness for C4: registration on a table with no owner is refused with
405; after an owner exists, a fresh registration creates the unconfirmed
user. -/
theorem claim_C4_witness :
    register_post (fun s => s) "id2" [] "newbie"
        { email := "n@x", full_name := "N", password := "pw", tree := none } =
      ([], 405) ∧
    register_post (fun s => s) "id2"
        [{ id := "id1", name := "boss", email := some "b@x", fullname := none,
           pwhash := "h", role := ROLE_OWNER, tree := none }] "newbie"
        { email := "n@x", full_name := "N", password := "pw", tree := none } =
      ([{ id := "id1", name := "boss", email := some "b@x", fullname := none,
          pwhash := "h", role := ROLE_OWNER, tree := none },
        { id := "id2", name := "newbie", email := some "n@x",
          fullname := some "N", pwhash := "pw",
          role := ROLE_UNCONFIRMED, tree := none }], 201) := by
  constructor
  · exact (claim_C4_register_requires_owner (fun s => s) "id2" [] "newbie"
      { email := "n@x", full_name := "N", password := "pw", tree := none }
      (by decide)).1 (by decide)
  · exact (claim_C4_register_requires_owner (fun s => s) "id2" _ "newbie"
      { email := "n@x", full_name := "N", password := "pw", tree := none }
      (by decide)).2 (by decide) (by decide) (by decide)
      (by intro u hu; simp at hu; subst hu; refine ⟨by decide, by decide, by decide⟩)

/-! ## Password reset workflow (api/resources/user.py lines 338-401) -/

/-- The claims carried by a password-reset JWT: the user's GUID as the
identity, the snapshot `old_hash` of the password hash at issuance, and
the limited-scope tag. -/
structure ResetToken where
  identity : String
  old_hash : String
  limited_scope : String
deriving DecidableEq

/-- `UserTriggerResetPasswordResource.post` (lines 341-372): 404 when the
name is "-", the user is unknown or has no e-mail on file; otherwise a
reset-scope token embedding the current password hash is issued (the
e-mail dispatch that carries it does not change the user table).  The
result is the issued token, `none` standing for the 404 aborts. -/
def trigger_reset_post (db : List User) (user_name : String) :
    Option ResetToken :=
  if user_name = "-" then none
  else
    match lookupUser db user_name with
    | none => none
    | some user =>
      match user.email with
      | none => none
      | some _ =>
        some { identity := user.id, old_hash := user.pwhash,
               limited_scope := SCOPE_RESET_PW }

/-- `UserResetPasswordResource.post` (lines 382-401): empty new password →
400; wrong scope claim → 403; unknown identity → 401; embedded hash
snapshot differs from the current hash (token already used or credentials
changed since issuance) → 409 with no modification; otherwise the new
password is stored.  A failing `modify_user` would surface as a 500. -/
def reset_password_post (hashFn : String → String) (db : List User)
    (claims : ResetToken) (new_password : String) : List User × Nat :=
  if new_password = "" then (db, 400)
  else if claims.limited_scope ≠ SCOPE_RESET_PW then (db, 403)
  else
    match lookupUserById db claims.identity with
    | none => (db, 401)
    | some user =>
      if claims.old_hash ≠ user.pwhash then (db, 409)
      else
        match modify_user hashFn db user.name none (some new_password)
            none none none none with
        | .ok db2 => (db2, 201)
        | .error _ => (db, 500)

/-- A member of the table makes the `modify_user` existence check true. -/
theorem any_name_of_mem (db : List User) (u : User) (hu : u ∈ db) :
    db.any (fun v => decide (v.name = u.name)) = true := by
  rw [List.any_eq_true]
  exact ⟨u, hu, by simp⟩

/-- `modify_user` with only a password supplied rewrites exactly the
password hash of the rows with the given name. -/
theorem modify_user_password_only (hashFn : String → String)
    (db : List User) (name pw : String)
    (hex : db.any (fun v => decide (v.name = name)) = true) :
    modify_user hashFn db name none (some pw) none none none none =
      .ok (db.map (fun u =>
        if u.name = name then { u with pwhash := hashFn pw } else u)) := by
  unfold modify_user
  rw [if_pos hex]
  rfl

/-- C3: a reset token issued by the trigger embeds the password hash
current at issuance; presenting it later fails with Conflict (409) and no
modification when the stored hash has changed, and sets the new password
when the stored hash is still the embedded one. -/
theorem claim_C3_reset_token_single_use
    (hashFn : String → String) (db0 db1 : List User)
    (user_name new_password : String) (u0 u1 : User) (tok : ResetToken)
    (h0 : lookupUser db0 user_name = some u0)
    (htok : trigger_reset_post db0 user_name = some tok)
    (h1 : lookupUserById db1 tok.identity = some u1)
    (hnp : new_password ≠ "") :
    tok.old_hash = u0.pwhash ∧
    (u1.pwhash ≠ u0.pwhash →
      reset_password_post hashFn db1 tok new_password = (db1, 409)) ∧
    (u1.pwhash = u0.pwhash →
      reset_password_post hashFn db1 tok new_password =
        (db1.map (fun u =>
          if u.name = u1.name then { u with pwhash := hashFn new_password }
          else u), 201)) := by
  have hnm : user_name ≠ "-" := by
    intro h
    rw [trigger_reset_post, if_pos h] at htok
    cases htok
  simp only [trigger_reset_post, if_neg hnm, h0] at htok
  cases he : u0.email with
  | none =>
    simp only [he] at htok
    cases htok
  | some e =>
    simp only [he] at htok
    have htok2 :
        ({ identity := u0.id, old_hash := u0.pwhash,
           limited_scope := SCOPE_RESET_PW } : ResetToken) = tok :=
      Option.some.inj htok
    subst htok2
    refine ⟨rfl, ?_, ?_⟩
    · intro hdiff
      have : ¬ (u0.pwhash = u1.pwhash) := fun h => hdiff h.symm
      simp [reset_password_post, hnp, SCOPE_RESET_PW, h1, this]
    · intro hsame
      have hmem : u1 ∈ db1 := List.mem_of_find?_eq_some h1
      have hmod := modify_user_password_only hashFn db1 u1.name new_password
        (any_name_of_mem db1 u1 hmem)
      simp [reset_password_post, hnp, SCOPE_RESET_PW, h1, hsame.symm, hmod]

/-- Witness for C3: a token issued against hash "H0"; after the hash
changed to "H1" the application is rejected with 409, while against the
unchanged table the new password is stored. -/
theorem claim_C3_witness :
    reset_password_post (fun s => "hash:" ++ s)
        [{ id := "i1", name := "a", email := some "a@x", fullname := none,
           pwhash := "H1", role := 0, tree := none }]
        { identity := "i1", old_hash := "H0",
          limited_scope := SCOPE_RESET_PW } "npw" =
      ([{ id := "i1", name := "a", email := some "a@x", fullname := none,
          pwhash := "H1", role := 0, tree := none }], 409) ∧
    reset_password_post (fun s => "hash:" ++ s)
        [{ id := "i1", name := "a", email := some "a@x", fullname := none,
           pwhash := "H0", role := 0, tree := none }]
        { identity := "i1", old_hash := "H0",
          limited_scope := SCOPE_RESET_PW } "npw" =
      ([{ id := "i1", name := "a", email := some "a@x", fullname := none,
          pwhash := "hash:npw", role := 0, tree := none }], 201) := by
  constructor
  · exact (claim_C3_reset_token_single_use (fun s => "hash:" ++ s)
      [{ id := "i1", name := "a", email := some "a@x", fullname := none,
         pwhash := "H0", role := 0, tree := none }]
      [{ id := "i1", name := "a", email := some "a@x", fullname := none,
         pwhash := "H1", role := 0, tree := none }]
      "a" "npw"
      { id := "i1", name := "a", email := some "a@x", fullname := none,
        pwhash := "H0", role := 0, tree := none }
      { id := "i1", name := "a", email := some "a@x", fullname := none,
        pwhash := "H1", role := 0, tree := none }
      { identity := "i1", old_hash := "H0", limited_scope := SCOPE_RESET_PW }
      (by decide) (by decide) (by decide) (by decide)).2.1 (by decide)
  · exact (claim_C3_reset_token_single_use (fun s => "hash:" ++ s)
      [{ id := "i1", name := "a", email := some "a@x", fullname := none,
         pwhash := "H0", role := 0, tree := none }]
      [{ id := "i1", name := "a", email := some "a@x", fullname := none,
         pwhash := "H0", role := 0, tree := none }]
      "a" "npw"
      { id := "i1", name := "a", email := some "a@x", fullname := none,
        pwhash := "H0", role := 0, tree := none }
      { id := "i1", name := "a", email := some "a@x", fullname := none,
        pwhash := "H0", role := 0, tree := none }
      { identity := "i1", old_hash := "H0", limited_scope := SCOPE_RESET_PW }
      (by decide) (by decide) (by decide) (by decide)).2.2 (by decide)

/-! ## Editing endpoints (api/resources/user.py lines 78-104, 317-335)

`UserChangeBase.prepare_edit` resolves the target user and the required
permission before an edit.  The caller's identity (`get_jwt_identity`) and
tree (`get_tree_from_jwt`), and the booleans saying which permissions the
session holds (`require_permissions` aborts 403 on a missing one), are
inputs.  The target's tree (`get_tree_id`) is the tree column of the row
found by name.

For an unknown target name, `get_guid` raises `ValueError`; the handler
reads `except ValueError():` — an exception *instance*, not the class —
so CPython raises `TypeError: catching classes that do not inherit from
BaseException is not allowed` at match time, the `abort(404)` body never
runs, and the TypeError propagates out of the handler (an HTTP 500).
That control path is the `uncaught_type_error` outcome. -/

inductive EditOutcome where
  | ok (user_name : String) (other_tree : Bool)
  | abort (status : Nat)
  | uncaught_type_error
deriving DecidableEq

/-- `UserChangeBase.prepare_edit` (lines 81-104). -/
def prepare_edit (db : List User) (caller_id : String)
    (caller_tree : Option String)
    (has_edit_own has_edit_other has_edit_other_tree : Bool)
    (user_name : String) : EditOutcome :=
  if user_name = "-" then
    if !has_edit_own then .abort 403
    else
      match lookupUserById db caller_id with
      | none => .abort 401
      | some own => .ok own.name false
  else
    match lookupUser db user_name with
    | none => .uncaught_type_error
    | some target =>
      if caller_tree = target.tree then
        if !has_edit_other then .abort 403 else .ok user_name false
      else
        if !has_edit_other_tree then .abort 403 else .ok user_name true

/-- A Python value that is either an int or a str, with Python's `==`:
values of different types compare unequal (int.\_\_eq\_\_ returns
NotImplemented on a str and the fallback is identity-based inequality). -/
inductive PyVal where
  | int (n : Nat)
  | str (s : String)
deriving DecidableEq

def pyEq : PyVal → PyVal → Bool
  | .int a, .int b => decide (a = b)
  | .str a, .str b => decide (a = b)
  | _, _ => false

/-- `UserChangePasswordResource.post` (lines 317-335).  The guard on the
new password is written `len(args["new_password"]) == ""` in the source:
an int compared with a str, which is Python-false for every input, so the
400 branch is unreachable.  Then the old password is verified with
`authorized` (403 on failure) and the new password is stored. -/
def change_password_post (hashFn : String → String)
    (verifyFn : String → String → Bool) (db : List User)
    (caller_id : String) (caller_tree : Option String)
    (has_edit_own has_edit_other has_edit_other_tree : Bool)
    (user_name old_password new_password : String) : List User × Nat :=
  match prepare_edit db caller_id caller_tree has_edit_own has_edit_other
      has_edit_other_tree user_name with
  | .abort s => (db, s)
  | .uncaught_type_error => (db, 500)
  | .ok name _ =>
    if pyEq (.int new_password.length) (.str "") then (db, 400)
    else if !(authorized verifyFn db name old_password) then (db, 403)
    else
      match modify_user hashFn db name none (some new_password)
          none none none none with
      | .ok db2 => (db2, 201)
      | .error _ => (db, 500)

/-- C8 (code bug): for a name other than "-" naming no existing user,
`prepare_edit` ends in the uncaught TypeError — not in the 404 abort the
spec requires — and the password-change endpoint consequently answers 500
with the table unchanged. -/
theorem claim_C8_unknown_user_type_error
    (hashFn : String → String) (verifyFn : String → String → Bool)
    (db : List User) (caller_id : String) (caller_tree : Option String)
    (heo het hett : Bool) (user_name old_pw new_pw : String)
    (hname : user_name ≠ "-")
    (hmiss : lookupUser db user_name = none) :
    prepare_edit db caller_id caller_tree heo het hett user_name =
      .uncaught_type_error ∧
    change_password_post hashFn verifyFn db caller_id caller_tree
      heo het hett user_name old_pw new_pw = (db, 500) := by
  constructor
  · simp [prepare_edit, hname, hmiss]
  · simp [change_password_post, prepare_edit, hname, hmiss]

/-- Witness for C8: changing the password of the nonexistent user "ghost"
on the empty table. -/
theorem claim_C8_witness :
    prepare_edit [] "cid" none true true true "ghost" =
      .uncaught_type_error ∧
    change_password_post (fun s => s) (fun _ _ => true) [] "cid" none
      true true true "ghost" "old" "new" = ([], 500) :=
  claim_C8_unknown_user_type_error (fun s => s) (fun _ _ => true) [] "cid"
    none true true true "ghost" "old" "new" (by decide) (by decide)

/-- `prepare_edit` only ever aborts with 401 or 403. -/
theorem prepare_edit_abort_cases (db : List User) (caller_id : String)
    (caller_tree : Option String) (heo het hett : Bool)
    (user_name : String) (s : Nat)
    (h : prepare_edit db caller_id caller_tree heo het hett user_name =
      .abort s) : s = 401 ∨ s = 403 := by
  unfold prepare_edit at h
  split at h
  · split at h
    · right
      exact (EditOutcome.abort.inj h).symm
    · split at h
      · left
        exact (EditOutcome.abort.inj h).symm
      · cases h
  · split at h
    · cases h
    · split at h <;> split at h <;> first
        | (right; exact (EditOutcome.abort.inj h).symm)
        | cases h

/-- A successful `authorized` check implies the user row exists, so the
subsequent `modify_user` lookup by name succeeds. -/
theorem authorized_implies_any_name (verifyFn : String → String → Bool)
    (db : List User) (name pw : String)
    (h : authorized verifyFn db name pw = true) :
    db.any (fun v => decide (v.name = name)) = true := by
  unfold authorized at h
  cases hf : lookupUser db name with
  | none =>
    rw [hf] at h
    cases h
  | some u =>
    have hf2 : List.find? (fun v => decide (v.name = name)) db = some u := hf
    have hm : u ∈ db := List.mem_of_find?_eq_some hf2
    have hp := List.find?_some hf2
    rw [List.any_eq_true]
    exact ⟨u, hm, hp⟩

/-- C10: the password-change endpoint can never answer 400 — the guard
compares an int with the empty string, false for every input — and with a
correct old password an empty new password is accepted: the handler
answers 201 and stores the hash of the empty string. -/
theorem claim_C10_empty_new_password_accepted
    (hashFn : String → String) (verifyFn : String → String → Bool)
    (db : List User) (caller_id : String) (caller_tree : Option String)
    (heo het hett : Bool) (user_name old_pw new_pw : String) :
    (change_password_post hashFn verifyFn db caller_id caller_tree
      heo het hett user_name old_pw new_pw).2 ≠ 400 ∧
    (∀ name other_tree,
      prepare_edit db caller_id caller_tree heo het hett user_name =
        .ok name other_tree →
      authorized verifyFn db name old_pw = true →
      change_password_post hashFn verifyFn db caller_id caller_tree
        heo het hett user_name old_pw "" =
        (db.map (fun u =>
          if u.name = name then { u with pwhash := hashFn "" } else u),
         201)) := by
  constructor
  · unfold change_password_post
    cases hpe : prepare_edit db caller_id caller_tree heo het hett user_name with
    | abort s =>
      rcases prepare_edit_abort_cases db caller_id caller_tree heo het hett
        user_name s hpe with h | h <;> simp [h]
    | uncaught_type_error => simp
    | ok name other_tree =>
      simp only [pyEq, Bool.false_eq_true, if_false]
      cases ha : authorized verifyFn db name old_pw with
      | false => simp
      | true =>
        simp only [Bool.not_true, Bool.false_eq_true, if_false]
        cases hm : modify_user hashFn db name none (some new_pw)
            none none none none with
        | ok db2 => simp
        | error e => simp
  · intro name other_tree hpe ha
    have hmod := modify_user_password_only hashFn db name ""
      (authorized_implies_any_name verifyFn db name old_pw ha)
    simp [change_password_post, hpe, pyEq, ha, hmod]

/-- Witness for C10: the caller edits the own account ("-") with the
correct old password and an empty new password; the stored hash becomes
the hash of "". -/
theorem claim_C10_witness :
    (change_password_post (fun s => "hash:" ++ s) (fun _ _ => true)
      [{ id := "i1", name := "a", email := none, fullname := none,
         pwhash := "H", role := 0, tree := none }]
      "i1" none true true true "-" "old" "x").2 ≠ 400 ∧
    change_password_post (fun s => "hash:" ++ s) (fun _ _ => true)
      [{ id := "i1", name := "a", email := none, fullname := none,
         pwhash := "H", role := 0, tree := none }]
      "i1" none true true true "-" "old" "" =
      ([{ id := "i1", name := "a", email := none, fullname := none,
          pwhash := "hash:", role := 0, tree := none }], 201) := by
  constructor
  · exact (claim_C10_empty_new_password_accepted (fun s => "hash:" ++ s)
      (fun _ _ => true) _ "i1" none true true true "-" "old" "x").1
  · exact (claim_C10_empty_new_password_accepted (fun s => "hash:" ++ s)
      (fun _ _ => true)
      [{ id := "i1", name := "a", email := none, fullname := none,
         pwhash := "H", role := 0, tree := none }]
      "i1" none true true true "-" "old" "").2 "a" false
      (by decide) (by decide)

/-! ## Single-user view (api/resources/user.py lines 121-150) -/

/-- The JSON document built by `_get_user_detail` (auth/__init__.py lines
157-164): name, email, full_name, role and tree, without the hash or the
id. -/
structure UserDetails where
  name : String
  email : Option String
  full_name : Option String
  role : Int
  tree : Option String
deriving DecidableEq

def user_details_of (u : User) : UserDetails :=
  { name := u.name, email := u.email, full_name := u.fullname,
    role := u.role, tree := u.tree }

/-- `get_user_details` (auth/__init__.py lines 167-173). -/
def get_user_details (db : List User) (username : String) :
    Option UserDetails :=
  (lookupUser db username).map user_details_of

/-- The tail of `UserResource.get`: fetch the details of the resolved
name, 404 when no such user. -/
def user_get_finish (db : List User) (name : String) :
    Nat × Option UserDetails :=
  match get_user_details db name with
  | none => (404, none)
  | some d => (200, some d)

/-- The same-tree membership check of `UserResource.get` (lines 135-145):
run only when the resolved name differs from the literal "_" and the
caller lacks the cross-tree view permission; aborts 404 when the target is
unknown and 403 when the target lives in another tree. -/
def user_get_tree_check (db : List User) (caller_tree : Option String)
    (has_view_other_tree : Bool) (name : String) :
    Nat × Option UserDetails :=
  if name ≠ "_" ∧ has_view_other_tree = false then
    match lookupUser db name with
    | none => (404, none)
    | some target =>
      if caller_tree ≠ target.tree then (403, none)
      else user_get_finish db name
  else user_get_finish db name

/-- `UserResource.get` (lines 124-150): "-" resolves to the caller's own
name (401 when the token identity is stale); any other name requires the
same-tree view permission; then the cross-tree guard above; then the
details are returned. -/
def user_resource_get (db : List User) (caller_id : String)
    (caller_tree : Option String)
    (has_view_other has_view_other_tree : Bool) (user_name : String) :
    Nat × Option UserDetails :=
  if user_name = "-" then
    match lookupUserById db caller_id with
    | none => (401, none)
    | some own => user_get_tree_check db caller_tree has_view_other_tree own.name
  else
    if has_view_other = false then (403, none)
    else user_get_tree_check db caller_tree has_view_other_tree user_name

/-- C9: the same-tree membership check is skipped exactly for a target
whose resolved name is the literal "_": a caller holding only the
same-tree view permission obtains the details of a user named "_" living
in another tree (200), while the same request for any other name in
another tree is refused with 403. -/
theorem claim_C9_underscore_skips_tree_check
    (db : List User) (caller_id : String) (caller_tree : Option String)
    (target other : User) (oname : String)
    (htname : target.name = "_")
    (hfind : lookupUser db "_" = some target)
    (htree : caller_tree ≠ target.tree)
    (hon1 : oname ≠ "_") (hon2 : oname ≠ "-")
    (hfind2 : lookupUser db oname = some other)
    (htree2 : caller_tree ≠ other.tree) :
    user_resource_get db caller_id caller_tree true false "_" =
      (200, some (user_details_of target)) ∧
    user_resource_get db caller_id caller_tree true false oname =
      (403, none) := by
  constructor
  · simp [user_resource_get, user_get_tree_check, user_get_finish,
      get_user_details, hfind]
  · simp [user_resource_get, user_get_tree_check, hon1, hon2, hfind2, htree2]

/-- Witness for C9: the caller (tree "A") with only the same-tree view
permission reads the details of the user literally named "_" in tree "B",
but is refused for the user "bob" in tree "B". -/
theorem claim_C9_witness :
    user_resource_get
      [{ id := "i1", name := "_", email := none, fullname := none,
         pwhash := "h", role := 0, tree := some "B" },
       { id := "i2", name := "bob", email := none, fullname := none,
         pwhash := "h", role := 0, tree := some "B" }]
      "c" (some "A") true false "_" =
      (200, some { name := "_", email := none, full_name := none,
                   role := 0, tree := some "B" }) ∧
    user_resource_get
      [{ id := "i1", name := "_", email := none, fullname := none,
         pwhash := "h", role := 0, tree := some "B" },
       { id := "i2", name := "bob", email := none, fullname := none,
         pwhash := "h", role := 0, tree := some "B" }]
      "c" (some "A") true false "bob" = (403, none) :=
  claim_C9_underscore_skips_tree_check
    [{ id := "i1", name := "_", email := none, fullname := none,
       pwhash := "h", role := 0, tree := some "B" },
     { id := "i2", name := "bob", email := none, fullname := none,
       pwhash := "h", role := 0, tree := some "B" }]
    "c" (some "A")
    { id := "i1", name := "_", email := none, fullname := none,
      pwhash := "h", role := 0, tree := some "B" }
    { id := "i2", name := "bob", email := none, fullname := none,
      pwhash := "h", role := 0, tree := some "B" }
    "bob" (by decide) (by decide) (by decide) (by decide) (by decide)
    (by decide) (by decide)
